import Mathlib

/-!
Verification development for the constraint-linearization compiler of the
kimchi proof system (`src/kimchi/src/linearization.rs`).

The three functions of that file — `constraints_expr`, `linearization_columns`
and `expr_linearization` — are embedded shallowly below.  The supporting code
they call (the `Alphas` exponent registry, the `Expr` symbolic expression
algebra, the lookup module and the per-gate constraint providers) lives in
other files of the repository that are not part of the sources under review;
those parts are modelled from the specification, as flagged by their doc
comments.  Field constants are abstracted as natural numbers: none of the
properties below depend on field arithmetic.  The Rust functions return plain
values and report every failure by panicking; `Except.error` below models a
panic.
-/

namespace KimchiLin

/-- Gate kinds appearing in the linearization module (selector keys and
registry keys). -/
inductive GateType
  | Zero
  | Generic
  | Poseidon
  | CompleteAdd
  | VarBaseMul
  | EndoMul
  | EndoMulScalar
  | ChaCha0
  | ChaCha1
  | ChaCha2
  | ChaChaFinal
  | RangeCheck0
  | ForeignFieldAdd
  | ForeignFieldMul
  | Xor16
  deriving DecidableEq

/-- Columns a constraint expression can reference, as in `expr.rs`:
witness slots, coefficient slots, the permutation accumulator `Z`, the
lookup-related polynomials and per-gate index selectors. -/
inductive Column
  | Witness (i : Nat)
  | Z
  | LookupSorted (i : Nat)
  | LookupAggreg
  | LookupTable
  | LookupRuntimeTable
  | Index (g : GateType)
  | Coefficient (i : Nat)
  deriving DecidableEq

/-- Feature flags that can gate a conditional sub-expression
(`Expr::EnabledIf` in the source). -/
inductive FeatureFlag
  | ChaCha
  | RangeCheck
  | ForeignFieldAdd
  | ForeignFieldMul
  | Xor
  | LookupTables
  deriving DecidableEq

/-- Which lookup pattern families are active for a circuit. -/
structure LookupPatterns where
  xor : Bool
  chacha_final : Bool
  lookup_gate : Bool
  range_check_gate : Bool
  foreign_field_mul_gate : Bool
  deriving DecidableEq

/-- Modelled from the spec: `LookupPatterns` has a defined "all-disabled"
default used to detect "no static configuration". -/
def LookupPatterns.default : LookupPatterns := ⟨false, false, false, false, false⟩

/-- Lookup feature record: pattern set plus runtime-table and joint-lookup
toggles. -/
structure LookupFeatures where
  patterns : LookupPatterns
  uses_runtime_tables : Bool
  joint_lookup_used : Bool
  deriving DecidableEq

/-- Per-circuit feature configuration, as in `constraints.rs`. -/
structure FeatureFlags where
  chacha : Bool
  range_check : Bool
  foreign_field_add : Bool
  foreign_field_mul : Bool
  xor : Bool
  lookup_features : LookupFeatures
  deriving DecidableEq

/-- Modelled from the spec: `LookupInfo` carries the maximal number of lookups
per row together with the feature record it was created from (`lookups.rs` is
outside the reviewed sources). -/
structure LookupInfo where
  max_per_row : Nat
  features : LookupFeatures
  deriving DecidableEq

/-- Modelled from the spec: each enabled lookup pattern contributes its own
maximal number of lookups per row; the overall maximum is taken. -/
def maxLookupsPerRow (p : LookupPatterns) : Nat :=
  max (if p.xor then 4 else 0)
    (max (if p.chacha_final then 4 else 0)
      (max (if p.lookup_gate then 3 else 0)
        (max (if p.range_check_gate then 4 else 0)
          (if p.foreign_field_mul_gate then 4 else 0))))

/-- Modelled from the spec: `LookupInfo::create` derives the row capacity from
the pattern set and stores the features. -/
def LookupInfo.create (features : LookupFeatures) : LookupInfo :=
  ⟨maxLookupsPerRow features.patterns, features⟩

/-- Modelled from the spec: the lookup configuration is built from a
`LookupInfo` (`constraints.rs` of the lookup module is outside the reviewed
sources). -/
structure LookupConfiguration where
  lookup_info : LookupInfo
  deriving DecidableEq

/-- Modelled from the spec: `LookupConfiguration::new`. -/
def LookupConfiguration.new (li : LookupInfo) : LookupConfiguration := ⟨li⟩

/-- Registry key: a gate family, the permutation argument or the lookup
argument (`argument.rs`). -/
inductive ArgumentType
  | Gate (g : GateType)
  | Permutation
  | Lookup
  deriving DecidableEq

/-- Modelled from the spec and the source comment "The gate type argument can
just be the zero gate": all gate kinds share one registry slot, keyed by the
zero gate. -/
def ArgumentType.normalize : ArgumentType → ArgumentType
  | .Gate _ => .Gate .Zero
  | t => t

/-- Modelled from the spec: the exponent registry ("Alphas") maps argument
types to contiguous half-open exponent ranges, allocated in registration
order.  `mapping` stores `(type, first exponent, count)` in registration
order and `next` is the first unallocated exponent. -/
structure Alphas where
  next : Nat
  mapping : List (ArgumentType × Nat × Nat)
  deriving DecidableEq

/-- The empty registry (`Alphas::default()`). -/
def Alphas.default : Alphas := ⟨0, []⟩

/-- Modelled from the spec: `register` appends the next `n` exponents after
all previously registered ranges; registering the same argument type twice
fails loudly. -/
def Alphas.register (a : Alphas) (ty : ArgumentType) (n : Nat) :
    Except String Alphas :=
  if a.mapping.any (fun e => e.1 == ty.normalize) then
    .error "cannot re-register an argument type"
  else
    .ok ⟨a.next + n, a.mapping ++ [(ty.normalize, a.next, n)]⟩

/-- Modelled from the spec: `get_exponents` returns the first `n` exponents of
the range stored for a previously registered family, failing if the family was
never registered or more exponents are requested than were stored (compare the
spec's scenario where requesting 4 exponents from a range of 3 fails). -/
def Alphas.get_exponents (a : Alphas) (ty : ArgumentType) (n : Nat) :
    Except String (List Nat) :=
  match a.mapping.find? (fun e => e.1 == ty.normalize) with
  | none => .error "argument type was never registered"
  | some (_, start, count) =>
      if n ≤ count then .ok ((List.range n).map (fun i => start + i))
      else .error "requested more exponents than were registered"

instance {ε α : Type} [DecidableEq ε] [DecidableEq α] : DecidableEq (Except ε α) :=
  fun a b =>
    match a, b with
    | .error e, .error e' =>
        if h : e = e' then .isTrue (h ▸ rfl)
        else .isFalse (fun hc => h (by cases hc; rfl))
    | .ok x, .ok y =>
        if h : x = y then .isTrue (h ▸ rfl)
        else .isFalse (fun hc => h (by cases hc; rfl))
    | .error _, .ok _ => .isFalse (fun hc => Except.noConfusion hc)
    | .ok _, .error _ => .isFalse (fun hc => Except.noConfusion hc)

/-- Symbolic polynomial expression over columns, constants and challenge
powers, with feature-gated conditional nodes (`Expr` of `expr.rs`). -/
inductive Expr
  | const (c : Nat)
  | cell (col : Column)
  | alphaPow (n : Nat)
  | add (a b : Expr)
  | mul (a b : Expr)
  | enabledIf (f : FeatureFlag) (e : Expr)
  deriving DecidableEq

/-- Modelled from the spec: `Expr::combine_constraints` weights each
constraint by the matching challenge power and sums the results. -/
def combineConstraints (alphas : List Nat) (cs : List Expr) : Expr :=
  ((alphas.zip cs).map (fun p => Expr.mul (Expr.alphaPow p.1) p.2)).foldl
    Expr.add (Expr.const 0)

/-- The fixed protocol width (`wires.rs`: `COLUMNS = 15`). -/
def COLUMNS : Nat := 15

/-- Modelled from the spec: each gate family's constraint list; the shape
(selector times witness data, no conditional nodes) stands for the real
per-gate polynomials, which live outside the reviewed sources. -/
def familyConstraints (g : GateType) (n : Nat) : List Expr :=
  (List.range n).map
    (fun i => Expr.mul (Expr.cell (Column.Index g)) (Expr.cell (Column.Witness (i % COLUMNS))))

/-- Modelled from the spec: a gate family's `combined_constraints` asks the
registry for its exponent range and combines its constraints with it. -/
def combinedConstraints (g : GateType) (n : Nat) (alphas : Alphas) :
    Except String Expr := do
  let exps ← alphas.get_exponents (.Gate g) n
  pure (combineConstraints exps (familyConstraints g n))

/-- Modelled from the spec: static constraint counts of the gate families
(each family "exposes a static constraint count usable before allocation");
`VarbaseMul` has the largest count, matching the source comment "Only the max
number of constraints matters". -/
def VarbaseMul.CONSTRAINTS : Nat := 21

/-- Modelled from the spec: static constraint count of the Poseidon family. -/
def Poseidon.CONSTRAINTS : Nat := 15

/-- Modelled from the spec: static constraint count of complete addition. -/
def CompleteAdd.CONSTRAINTS : Nat := 7

/-- Modelled from the spec: static constraint count of endoscaling. -/
def EndosclMul.CONSTRAINTS : Nat := 11

/-- Modelled from the spec: static constraint count of endoscalar decomposition. -/
def EndomulScalar.CONSTRAINTS : Nat := 11

/-- Modelled from the spec: static constraint count of the first ChaCha gate. -/
def ChaCha0.CONSTRAINTS : Nat := 9

/-- Modelled from the spec: static constraint count of the second ChaCha gate. -/
def ChaCha1.CONSTRAINTS : Nat := 9

/-- Modelled from the spec: static constraint count of the third ChaCha gate. -/
def ChaCha2.CONSTRAINTS : Nat := 9

/-- Modelled from the spec: static constraint count of the final ChaCha gate. -/
def ChaChaFinal.CONSTRAINTS : Nat := 9

/-- Modelled from the spec: static constraint count of the range-check gadget. -/
def RangeCheckGadget.CONSTRAINTS : Nat := 10

/-- Modelled from the spec: static constraint count of foreign-field addition. -/
def ForeignFieldAdd.CONSTRAINTS : Nat := 4

/-- Modelled from the spec: static constraint count of foreign-field multiplication. -/
def ForeignFieldMul.CONSTRAINTS : Nat := 11

/-- Modelled from the spec: static constraint count of the Xor gadget. -/
def Xor16.CONSTRAINTS : Nat := 16

/-- Modelled from the spec: static constraint count of the generic gate. -/
def Generic.CONSTRAINTS : Nat := 2

/-- Modelled from the spec: static constraint count of the permutation
argument ("a statically-known constraint count"). -/
def Permutation.CONSTRAINTS : Nat := 3

/-- The ChaCha closure of `constraints_expr` (source lines 55-61): the sum of
the four ChaCha gates' combined constraints. -/
def chachaExpr (powers : Alphas) : Except String Expr := do
  let e0 ← combinedConstraints .ChaCha0 ChaCha0.CONSTRAINTS powers
  let e1 ← combinedConstraints .ChaCha1 ChaCha1.CONSTRAINTS powers
  let e2 ← combinedConstraints .ChaCha2 ChaCha2.CONSTRAINTS powers
  let e3 ← combinedConstraints .ChaChaFinal ChaChaFinal.CONSTRAINTS powers
  pure (((e0.add e1).add e2).add e3)

/-- Modelled from the spec: `range_check::gadget::combined_constraints`. -/
def rangeCheckCombined (powers : Alphas) : Except String Expr :=
  combinedConstraints .RangeCheck0 RangeCheckGadget.CONSTRAINTS powers

/-- Modelled from the spec: the constraint list of the lookup argument.  Its
length depends on the configuration "specifically the presence of runtime
tables" (source comment); the aggregation-style constraints multiply lookup
polynomials with each other, as the lookup argument's sorted/aggregated
design requires. -/
def lookupConstraints (cfg : LookupConfiguration) : List Expr :=
  [Expr.mul (Expr.cell Column.LookupAggreg) (Expr.cell Column.LookupTable),
   Expr.mul (Expr.cell Column.LookupAggreg) (Expr.cell (Column.LookupSorted 0)),
   Expr.add (Expr.cell Column.LookupAggreg) (Expr.const 1)]
  ++ (if cfg.lookup_info.features.uses_runtime_tables then
        [Expr.mul (Expr.cell Column.LookupRuntimeTable) (Expr.cell Column.LookupTable)]
      else [])

/-- `u32::try_from(..).expect(..)` of source lines 137-139 and 163-165: the
constraint count must fit 32 bits, otherwise the call panics with the
`expect` message; it never truncates. -/
def u32_try_from (n : Nat) : Except String Nat :=
  if n < 2 ^ 32 then .ok n
  else .error "we always expect a relatively low amount of constraints"

/-- The build profile: the generic-gate exponent check of source lines
179-183 sits under `cfg!(debug_assertions)`; a debug build is modelled. -/
def debug_assertions : Bool := true

/-- The runtime check of source lines 177-183: the generic gate must be
associated with `alpha^0`; `assert_eq!` panics otherwise. -/
def genericAlphaCheck (a : Alphas) : Except String Unit := do
  let exps ← a.get_exponents (.Gate .Generic) 1
  if exps.head? = some 0 then pure ()
  else .error "generic gate must be associated with alpha to the power 0"

/-- The all-enabled lookup feature record built inline by `constraints_expr`
when `feature_flags` is `None` (source lines 147-157). -/
def allLookupFeatures : LookupFeatures :=
  ⟨⟨true, true, true, true, true⟩, true, true⟩

/-- The lookup configuration of the all-enabled feature record. -/
def allLookupConfiguration : LookupConfiguration :=
  LookupConfiguration.new (LookupInfo.create allLookupFeatures)

/-- The gate part of `constraints_expr` (source lines 38-127): registry set-up
sized by the maximal gate constraint count, the five always-on families, the
five optional families (statically pruned or `EnabledIf`-wrapped), the
optional generic gate, and finally the permutation registration. -/
def gatePhase (feature_flags : Option FeatureFlags) (generic : Bool) :
    Except String (Expr × Alphas) := do
  let powers_of_alpha := Alphas.default
  let powers_of_alpha ← powers_of_alpha.register (.Gate .Zero) VarbaseMul.CONSTRAINTS
  let e0 ← combinedConstraints .Poseidon Poseidon.CONSTRAINTS powers_of_alpha
  let e1 ← combinedConstraints .VarBaseMul VarbaseMul.CONSTRAINTS powers_of_alpha
  let e2 ← combinedConstraints .CompleteAdd CompleteAdd.CONSTRAINTS powers_of_alpha
  let e3 ← combinedConstraints .EndoMul EndosclMul.CONSTRAINTS powers_of_alpha
  let e4 ← combinedConstraints .EndoMulScalar EndomulScalar.CONSTRAINTS powers_of_alpha
  let expr := (((e0.add e1).add e2).add e3).add e4
  let expr ← match feature_flags with
    | some ff =>
        if ff.chacha then do
          let ce ← chachaExpr powers_of_alpha
          pure (expr.add ce)
        else pure expr
    | none => do
        let ce ← chachaExpr powers_of_alpha
        pure (expr.add (Expr.enabledIf .ChaCha ce))
  let expr ← match feature_flags with
    | some ff =>
        if ff.range_check then do
          let rc ← rangeCheckCombined powers_of_alpha
          pure (expr.add rc)
        else pure expr
    | none => do
        let rc ← rangeCheckCombined powers_of_alpha
        pure (expr.add (Expr.enabledIf .RangeCheck rc))
  let expr ← match feature_flags with
    | some ff =>
        if ff.foreign_field_add then do
          let fa ← combinedConstraints .ForeignFieldAdd ForeignFieldAdd.CONSTRAINTS powers_of_alpha
          pure (expr.add fa)
        else pure expr
    | none => do
        let fa ← combinedConstraints .ForeignFieldAdd ForeignFieldAdd.CONSTRAINTS powers_of_alpha
        pure (expr.add (Expr.enabledIf .ForeignFieldAdd fa))
  let expr ← match feature_flags with
    | some ff =>
        if ff.foreign_field_mul then do
          let fm ← combinedConstraints .ForeignFieldMul ForeignFieldMul.CONSTRAINTS powers_of_alpha
          pure (expr.add fm)
        else pure expr
    | none => do
        let fm ← combinedConstraints .ForeignFieldMul ForeignFieldMul.CONSTRAINTS powers_of_alpha
        pure (expr.add (Expr.enabledIf .ForeignFieldMul fm))
  let expr ← match feature_flags with
    | some ff =>
        if ff.xor then do
          let xo ← combinedConstraints .Xor16 Xor16.CONSTRAINTS powers_of_alpha
          pure (expr.add xo)
        else pure expr
    | none => do
        let xo ← combinedConstraints .Xor16 Xor16.CONSTRAINTS powers_of_alpha
        pure (expr.add (Expr.enabledIf .Xor xo))
  let expr ← if generic then do
      let ge ← combinedConstraints .Generic Generic.CONSTRAINTS powers_of_alpha
      pure (expr.add ge)
    else pure expr
  let powers_of_alpha ← powers_of_alpha.register .Permutation Permutation.CONSTRAINTS
  pure (expr, powers_of_alpha)

/-- `constraints_expr` (source lines 34-187), parametrised by the lookup
constraint provider `lc` (the provider itself lives outside the reviewed
sources): the gate phase, then the lookup argument — statically configured
when flags are present, all-enabled and `EnabledIf`-wrapped when absent —
and finally the debug check that the generic gate owns `alpha^0`. -/
def constraintsExprWith (lc : LookupConfiguration → List Expr)
    (feature_flags : Option FeatureFlags) (generic : Bool) :
    Except String (Expr × Alphas) := do
  let (expr, powers_of_alpha) ← gatePhase feature_flags generic
  let (expr, powers_of_alpha) ← match feature_flags with
    | some ff => do
        let lookup_configuration :=
          LookupConfiguration.new (LookupInfo.create ff.lookup_features)
        let constraints := lc lookup_configuration
        let constraints_len ← u32_try_from constraints.length
        let powers_of_alpha ← powers_of_alpha.register .Lookup constraints_len
        let alphas ← powers_of_alpha.get_exponents .Lookup constraints_len
        pure (expr.add (combineConstraints alphas constraints), powers_of_alpha)
    | none => do
        let lookup_configuration :=
          LookupConfiguration.new (LookupInfo.create allLookupFeatures)
        let constraints := lc lookup_configuration
        let constraints_len ← u32_try_from constraints.length
        let powers_of_alpha ← powers_of_alpha.register .Lookup constraints_len
        let alphas ← powers_of_alpha.get_exponents .Lookup constraints_len
        pure (expr.add (Expr.enabledIf .LookupTables (combineConstraints alphas constraints)),
              powers_of_alpha)
  let _ ← if debug_assertions then genericAlphaCheck powers_of_alpha else pure ()
  pure (expr, powers_of_alpha)

/-- `constraints_expr` with the repository's lookup constraint provider. -/
def constraints_expr (feature_flags : Option FeatureFlags) (generic : Bool) :
    Except String (Expr × Alphas) :=
  constraintsExprWith lookupConstraints feature_flags generic

/-- The all-enabled feature record substituted by `linearization_columns`
when its argument is `None` (source lines 197-221). -/
def allFeatureFlags : FeatureFlags :=
  ⟨true, true, true, true, true, allLookupFeatures⟩

/-- The `None` resolution of `linearization_columns`: substitute the
all-enabled flags (source lines 197-221). -/
def resolvedFlags (feature_flags : Option FeatureFlags) : FeatureFlags :=
  match feature_flags with
  | some f => f
  | none => allFeatureFlags

/-- The lookup-info guard of `linearization_columns` (source lines 233-237),
embedded exactly as written: a `LookupInfo` is produced when the pattern set
equals the all-disabled default. -/
def lookupInfoSelect (ff : FeatureFlags) : Option LookupInfo :=
  if ff.lookup_features.patterns = LookupPatterns.default then
    some (LookupInfo.create ff.lookup_features)
  else none

/-- The witness columns inserted by `linearization_columns`. -/
def witnessColumns : Finset Column :=
  ((List.range COLUMNS).map Column.Witness).toFinset

/-- The coefficient columns inserted by `linearization_columns`. -/
def coefficientColumns : Finset Column :=
  ((List.range COLUMNS).map Column.Coefficient).toFinset

/-- The lookup columns inserted by `linearization_columns` when a
`LookupInfo` was produced (source lines 240-251): the sorted polynomials
indexed `0..=max_per_row`, aggregation, table, and the runtime table when
runtime tables are in use. -/
def lookupColumns (li : LookupInfo) : Finset Column :=
  ((List.range (li.max_per_row + 1)).map Column.LookupSorted).toFinset
    ∪ {Column.LookupAggreg, Column.LookupTable}
    ∪ (if li.features.uses_runtime_tables then {Column.LookupRuntimeTable} else ∅)

/-- `linearization_columns` (source lines 191-263): the evaluated-column set,
modelled as a `Finset` (the source builds a `HashSet`; insertion order is
immaterial). -/
def linearization_columns (feature_flags : Option FeatureFlags) : Finset Column :=
  witnessColumns ∪ coefficientColumns
    ∪ (match lookupInfoSelect (resolvedFlags feature_flags) with
       | some li => lookupColumns li
       | none => (∅ : Finset Column))
    ∪ ({Column.Z, Column.Index GateType.Poseidon, Column.Index GateType.Generic} : Finset Column)

/-- Intermediate result of the linearizer: the coefficient of each isolated
(not separately opened) column, plus the residual constant part. -/
structure LinParts where
  terms : List (Column × Expr)
  constant : Expr
  deriving DecidableEq

/-- Modelled from the spec: the linearizer partitions an expression against
the evaluated-column set.  Cells of evaluated columns may appear anywhere and
stay in coefficients; a cell of any other column is isolated and must occur
linearly — a product in which both factors carry isolated columns cannot be
linearized and fails fatally (`expr.rs` is outside the reviewed sources). -/
def Expr.linearizeAux (evaluated : Finset Column) : Expr → Except String LinParts
  | .const c => .ok ⟨[], .const c⟩
  | .alphaPow n => .ok ⟨[], .alphaPow n⟩
  | .cell col =>
      if col ∈ evaluated then .ok ⟨[], .cell col⟩
      else .ok ⟨[(col, .const 1)], .const 0⟩
  | .add a b => do
      let la ← a.linearizeAux evaluated
      let lb ← b.linearizeAux evaluated
      .ok ⟨la.terms ++ lb.terms, la.constant.add lb.constant⟩
  | .mul a b => do
      let la ← a.linearizeAux evaluated
      let lb ← b.linearizeAux evaluated
      match la.terms, lb.terms with
      | [], _ =>
          .ok ⟨lb.terms.map (fun p => (p.1, la.constant.mul p.2)),
               la.constant.mul lb.constant⟩
      | _, [] =>
          .ok ⟨la.terms.map (fun p => (p.1, p.2.mul lb.constant)),
               la.constant.mul lb.constant⟩
      | _, _ => .error "FailedLinearization"
  | .enabledIf f e => do
      let le ← e.linearizeAux evaluated
      .ok ⟨le.terms.map (fun p => (p.1, Expr.enabledIf f p.2)),
           Expr.enabledIf f le.constant⟩

/-- The linearization result: the residual constant part plus the per-column
terms, each later compiled to a flat program. -/
structure Linearization (A : Type) where
  constant_term : A
  index_terms : List (Column × A)
  deriving DecidableEq

/-- `Linearization::map`: apply a function to every stored sub-expression. -/
def Linearization.map {A B : Type} (l : Linearization A) (f : A → B) :
    Linearization B :=
  ⟨f l.constant_term, l.index_terms.map (fun p => (p.1, f p.2))⟩

/-- Modelled from the spec: `Expr::linearize` — package the partition produced
by `linearizeAux`, failing when the expression cannot be fully linearized. -/
def Expr.linearize (e : Expr) (evaluated : Finset Column) :
    Except String (Linearization Expr) := do
  let parts ← e.linearizeAux evaluated
  .ok ⟨parts.constant, parts.terms⟩

/-- Flat program instructions ("Polish tokens"): push constant, push column
value, push challenge power, add, multiply, conditional skip. -/
inductive PolishToken
  | const (c : Nat)
  | cell (col : Column)
  | alphaPow (n : Nat)
  | add
  | mul
  | skipIf (f : FeatureFlag) (n : Nat)
  deriving DecidableEq

/-- Modelled from the spec: `Expr::to_polish` — postfix compilation of the
expression tree; a conditional node becomes a skip instruction carrying the
length of the guarded token run. -/
def Expr.to_polish : Expr → List PolishToken
  | .const c => [.const c]
  | .cell col => [.cell col]
  | .alphaPow n => [.alphaPow n]
  | .add a b => a.to_polish ++ b.to_polish ++ [.add]
  | .mul a b => a.to_polish ++ b.to_polish ++ [.mul]
  | .enabledIf f e =>
      let sub := e.to_polish
      .skipIf f sub.length :: sub

/-- `expr_linearization` (source lines 273-287): compute the evaluated-column
set, build the joint expression, linearize it (`unwrap` panics on failure) and
compile every part to a flat program. -/
def expr_linearization (feature_flags : Option FeatureFlags) (generic : Bool) :
    Except String (Linearization (List PolishToken) × Alphas) := do
  let evaluated_cols := linearization_columns feature_flags
  let (expr, powers_of_alpha) ← constraints_expr feature_flags generic
  let linearization ← expr.linearize evaluated_cols
  pure (linearization.map Expr.to_polish, powers_of_alpha)

/-- Registry state after the initial gate registration. -/
def gateOnlyAlphas : Alphas := ⟨21, [(ArgumentType.Gate GateType.Zero, 0, 21)]⟩

/-- Registry state after the gate and permutation registrations. -/
def gateAlphas : Alphas :=
  ⟨24, [(ArgumentType.Gate GateType.Zero, 0, 21), (ArgumentType.Permutation, 21, 3)]⟩

/-- Length of the lookup constraint list as a function of the runtime-table
toggle. -/
def lookupLen (urt : Bool) : Nat := if urt then 4 else 3

/-- Final registry state of `constraints_expr` with statically given flags. -/
def someAlphas (urt : Bool) : Alphas :=
  ⟨24 + lookupLen urt,
   [(ArgumentType.Gate GateType.Zero, 0, 21), (ArgumentType.Permutation, 21, 3),
    (ArgumentType.Lookup, 24, lookupLen urt)]⟩

/-- Final registry state of `constraints_expr` with absent flags. -/
def noneAlphas : Alphas := someAlphas true

/-- A gate family's combined constraints, evaluated at the shared gate range. -/
def famE (g : GateType) (n : Nat) : Expr :=
  combineConstraints ((List.range n).map (fun i => 0 + i)) (familyConstraints g n)

/-- The always-on part of the joint expression. -/
def gateBaseE : Expr :=
  ((((famE .Poseidon Poseidon.CONSTRAINTS).add
      (famE .VarBaseMul VarbaseMul.CONSTRAINTS)).add
      (famE .CompleteAdd CompleteAdd.CONSTRAINTS)).add
      (famE .EndoMul EndosclMul.CONSTRAINTS)).add
      (famE .EndoMulScalar EndomulScalar.CONSTRAINTS)

/-- The ChaCha contribution, evaluated. -/
def chachaE : Expr :=
  (((famE .ChaCha0 ChaCha0.CONSTRAINTS).add
     (famE .ChaCha1 ChaCha1.CONSTRAINTS)).add
     (famE .ChaCha2 ChaCha2.CONSTRAINTS)).add
     (famE .ChaChaFinal ChaChaFinal.CONSTRAINTS)

/-- The range-check contribution, evaluated. -/
def rcE : Expr := famE .RangeCheck0 RangeCheckGadget.CONSTRAINTS

/-- The foreign-field-addition contribution, evaluated. -/
def ffaE : Expr := famE .ForeignFieldAdd ForeignFieldAdd.CONSTRAINTS

/-- The foreign-field-multiplication contribution, evaluated. -/
def ffmE : Expr := famE .ForeignFieldMul ForeignFieldMul.CONSTRAINTS

/-- The Xor contribution, evaluated. -/
def xorE : Expr := famE .Xor16 Xor16.CONSTRAINTS

/-- The generic-gate contribution, evaluated. -/
def genE : Expr := famE .Generic Generic.CONSTRAINTS

/-- Gate-phase output of `constraints_expr` with statically given flags:
optional families included exactly when their flag is set, with no
conditional nodes. -/
def someGateExpr (f : FeatureFlags) (g : Bool) : Expr :=
  let e := gateBaseE
  let e := if f.chacha then e.add chachaE else e
  let e := if f.range_check then e.add rcE else e
  let e := if f.foreign_field_add then e.add ffaE else e
  let e := if f.foreign_field_mul then e.add ffmE else e
  let e := if f.xor then e.add xorE else e
  if g then e.add genE else e

/-- Gate-phase output of `constraints_expr` with absent flags: every optional
family wrapped in its conditional node. -/
def noneGateExpr (g : Bool) : Expr :=
  let e := gateBaseE
  let e := e.add (Expr.enabledIf .ChaCha chachaE)
  let e := e.add (Expr.enabledIf .RangeCheck rcE)
  let e := e.add (Expr.enabledIf .ForeignFieldAdd ffaE)
  let e := e.add (Expr.enabledIf .ForeignFieldMul ffmE)
  let e := e.add (Expr.enabledIf .Xor xorE)
  if g then e.add genE else e

/-- The lookup contribution with statically given flags, evaluated. -/
def lookupCombinedSome (urt : Bool) : Expr :=
  combineConstraints ((List.range (lookupLen urt)).map (fun i => 24 + i))
    ([Expr.mul (Expr.cell Column.LookupAggreg) (Expr.cell Column.LookupTable),
      Expr.mul (Expr.cell Column.LookupAggreg) (Expr.cell (Column.LookupSorted 0)),
      Expr.add (Expr.cell Column.LookupAggreg) (Expr.const 1)]
     ++ (if urt then
           [Expr.mul (Expr.cell Column.LookupRuntimeTable) (Expr.cell Column.LookupTable)]
         else []))

/-- The lookup contribution with absent flags, evaluated over the all-enabled
configuration. -/
def lookupCombinedNone : Expr :=
  combineConstraints
    ((List.range (lookupConstraints allLookupConfiguration).length).map (fun i => 24 + i))
    (lookupConstraints allLookupConfiguration)

/-- Joint expression of `constraints_expr` with statically given flags. -/
def someExpr (f : FeatureFlags) (g : Bool) : Expr :=
  (someGateExpr f g).add (lookupCombinedSome f.lookup_features.uses_runtime_tables)

/-- Joint expression of `constraints_expr` with absent flags. -/
def noneExpr (g : Bool) : Expr :=
  (noneGateExpr g).add (Expr.enabledIf .LookupTables lookupCombinedNone)

/-- Whether an expression contains a conditional node keyed to the given
flag, anywhere in the tree. -/
def Expr.containsFlag (fl : FeatureFlag) : Expr → Bool
  | .enabledIf f e => f == fl || e.containsFlag fl
  | .add a b => a.containsFlag fl || b.containsFlag fl
  | .mul a b => a.containsFlag fl || b.containsFlag fl
  | .const _ => false
  | .cell _ => false
  | .alphaPow _ => false

/-- Whether an expression is free of conditional nodes altogether. -/
def Expr.noFlags : Expr → Bool
  | .enabledIf _ _ => false
  | .add a b => a.noFlags && b.noFlags
  | .mul a b => a.noFlags && b.noFlags
  | .const _ => true
  | .cell _ => true
  | .alphaPow _ => true

/-- Registration keys of a registry, in registration order. -/
def registrationKeys (a : Alphas) : List ArgumentType :=
  a.mapping.map (fun e => e.1)

/-- Registered exponent counts of a registry, in registration order. -/
def registrationCounts (a : Alphas) : List Nat :=
  a.mapping.map (fun e => e.2.2)

/-- The range stored for an argument type: first exponent and count. -/
def Alphas.registeredRange (a : Alphas) (ty : ArgumentType) : Option (Nat × Nat) :=
  (a.mapping.find? (fun e => e.1 == ty.normalize)).map (fun e => e.2)

/-- The static constraint counts of all gate families. -/
def gateConstraintCountList : List Nat :=
  [Poseidon.CONSTRAINTS, VarbaseMul.CONSTRAINTS, CompleteAdd.CONSTRAINTS,
   EndosclMul.CONSTRAINTS, EndomulScalar.CONSTRAINTS, ChaCha0.CONSTRAINTS,
   ChaCha1.CONSTRAINTS, ChaCha2.CONSTRAINTS, ChaChaFinal.CONSTRAINTS,
   RangeCheckGadget.CONSTRAINTS, ForeignFieldAdd.CONSTRAINTS,
   ForeignFieldMul.CONSTRAINTS, Xor16.CONSTRAINTS, Generic.CONSTRAINTS]

/-- The flags of the five optional gate families handled by
`constraints_expr`. -/
def optionalFlagList : List FeatureFlag :=
  [.ChaCha, .RangeCheck, .ForeignFieldAdd, .ForeignFieldMul, .Xor]

/-- The feature-record field controlling each optional gate family (the
lookup flag is not an optional gate family; its value here is unused). -/
def flagEnabled (f : FeatureFlags) : FeatureFlag → Bool
  | .ChaCha => f.chacha
  | .RangeCheck => f.range_check
  | .ForeignFieldAdd => f.foreign_field_add
  | .ForeignFieldMul => f.foreign_field_mul
  | .Xor => f.xor
  | .LookupTables => true

/-- A feature record with every gate family and every lookup feature
disabled. -/
def noLookupGatesFlags : FeatureFlags :=
  ⟨false, false, false, false, false, ⟨LookupPatterns.default, false, false⟩⟩

/-- Following the specification's words: the `FeatureFlags` value with every
gate feature enabled and every lookup pattern, joint lookups, and runtime
tables enabled. -/
def specAllEnabledFlags : FeatureFlags :=
  ⟨true, true, true, true, true, ⟨⟨true, true, true, true, true⟩, true, true⟩⟩

/-- A feature record with ChaCha disabled and everything else enabled. -/
def chachaOffFlags : FeatureFlags :=
  ⟨false, true, true, true, true, allLookupFeatures⟩

/-- The lookup configuration `constraints_expr` builds for a given flags
argument. -/
def lookupCfgFor : Option FeatureFlags → LookupConfiguration
  | some f => LookupConfiguration.new (LookupInfo.create f.lookup_features)
  | none => LookupConfiguration.new (LookupInfo.create allLookupFeatures)

theorem exceptBind_ok {α β : Type} (a : α) (f : α → Except String β) :
    (Except.ok a >>= f) = f a := rfl

theorem exceptBind_error {α β : Type} (e : String) (f : α → Except String β) :
    ((Except.error e : Except String α) >>= f) = Except.error e := rfl

theorem gatePhase_some_eq (f : FeatureFlags) (g : Bool) :
    gatePhase (some f) g = .ok (someGateExpr f g, gateAlphas) := by
  obtain ⟨c, r, fa, fm, x, lf⟩ := f
  cases c <;> cases r <;> cases fa <;> cases fm <;> cases x <;> cases g <;> rfl

theorem gatePhase_none_eq (g : Bool) :
    gatePhase none g = .ok (noneGateExpr g, gateAlphas) := by
  cases g <;> rfl

theorem constraints_expr_some_eq (f : FeatureFlags) (g : Bool) :
    constraints_expr (some f) g =
      .ok (someExpr f g, someAlphas f.lookup_features.uses_runtime_tables) := by
  obtain ⟨c, r, fa, fm, x, pats, urt, jl⟩ := f
  show constraintsExprWith lookupConstraints (some ⟨c, r, fa, fm, x, pats, urt, jl⟩) g = _
  rw [constraintsExprWith, gatePhase_some_eq]
  cases urt <;> rfl

theorem constraints_expr_none_eq (g : Bool) :
    constraints_expr none g = .ok (noneExpr g, noneAlphas) := by
  cases g <;> rfl

theorem noFlags_add (a b : Expr) : (a.add b).noFlags = (a.noFlags && b.noFlags) := rfl

theorem noFlags_mul (a b : Expr) : (a.mul b).noFlags = (a.noFlags && b.noFlags) := rfl

theorem noFlags_ite (c : Prop) [Decidable c] (x y : Expr) :
    (if c then x else y).noFlags = if c then x.noFlags else y.noFlags := by
  split <;> rfl

theorem containsFlag_add (fl : FeatureFlag) (a b : Expr) :
    (a.add b).containsFlag fl = (a.containsFlag fl || b.containsFlag fl) := rfl

theorem containsFlag_mul (fl : FeatureFlag) (a b : Expr) :
    (a.mul b).containsFlag fl = (a.containsFlag fl || b.containsFlag fl) := rfl

theorem containsFlag_eq_false_of_noFlags (e : Expr) (he : e.noFlags = true)
    (fl : FeatureFlag) : e.containsFlag fl = false := by
  induction e with
  | const c => rfl
  | cell col => rfl
  | alphaPow n => rfl
  | add a b iha ihb =>
      rw [noFlags_add, Bool.and_eq_true] at he
      rw [containsFlag_add, iha he.1, ihb he.2]
      rfl
  | mul a b iha ihb =>
      rw [noFlags_mul, Bool.and_eq_true] at he
      rw [containsFlag_mul, iha he.1, ihb he.2]
      rfl
  | enabledIf f e ih => exact absurd he (by exact Bool.false_ne_true)

theorem gateBaseE_noFlags : gateBaseE.noFlags = true := by decide

theorem chachaE_noFlags : chachaE.noFlags = true := by decide

theorem rcE_noFlags : rcE.noFlags = true := by decide

theorem ffaE_noFlags : ffaE.noFlags = true := by decide

theorem ffmE_noFlags : ffmE.noFlags = true := by decide

theorem xorE_noFlags : xorE.noFlags = true := by decide

theorem genE_noFlags : genE.noFlags = true := by decide

theorem someGateExpr_noFlags (f : FeatureFlags) (g : Bool) :
    (someGateExpr f g).noFlags = true := by
  simp only [someGateExpr, noFlags_ite, noFlags_add, gateBaseE_noFlags,
    chachaE_noFlags, rcE_noFlags, ffaE_noFlags, ffmE_noFlags, xorE_noFlags,
    genE_noFlags, Bool.and_true, Bool.and_self, ite_self]

theorem lookupCombinedSome_noFlags (urt : Bool) :
    (lookupCombinedSome urt).noFlags = true := by
  cases urt <;> decide

theorem someExpr_noFlags (f : FeatureFlags) (g : Bool) :
    (someExpr f g).noFlags = true := by
  show ((someGateExpr f g).add (lookupCombinedSome _)).noFlags = true
  rw [noFlags_add, someGateExpr_noFlags, lookupCombinedSome_noFlags]
  rfl

theorem genericAlphaCheck_enforces (a : Alphas)
    (h : a.get_exponents (.Gate .Generic) 1 ≠ .ok [0]) :
    ∃ msg, genericAlphaCheck a = .error msg := by
  unfold genericAlphaCheck
  rcases hres : a.get_exponents (.Gate .Generic) 1 with e | l
  · exact ⟨e, rfl⟩
  · have hl : ∃ start, l = [start] := by
      unfold Alphas.get_exponents at hres
      rcases hf : a.mapping.find?
          (fun e => e.1 == (ArgumentType.Gate GateType.Generic).normalize) with _ | ⟨ty, start, count⟩
      · rw [hf] at hres; exact absurd hres (by simp)
      · rw [hf] at hres
        dsimp only at hres
        by_cases hc : 1 ≤ count
        · rw [if_pos hc] at hres
          refine ⟨start + 0, ?_⟩
          have := (Except.ok.injEq _ _).mp hres
          simpa [List.range_succ] using this.symm
        · rw [if_neg hc] at hres; exact absurd hres (by simp)
    obtain ⟨start, rfl⟩ := hl
    have hstart : start ≠ 0 := by
      intro h0
      exact h (by rw [hres, h0])
    refine ⟨"generic gate must be associated with alpha to the power 0", ?_⟩
    rw [exceptBind_ok, if_neg]
    simp [hstart]

/-- C1: against the claim that `linearization_columns` with `feature_flags =
None` contains the full lookup column set, the code as written omits every
lookup column in that case, because its guard adds them only when all lookup
patterns are disabled; the second conjunct shows the inversion by exhibiting a
lookup column for the all-disabled configuration. -/
theorem linearization_columns_none_omits_lookup_columns :
    (Column.LookupSorted 0 ∉ linearization_columns none
      ∧ Column.LookupAggreg ∉ linearization_columns none
      ∧ Column.LookupTable ∉ linearization_columns none
      ∧ Column.LookupRuntimeTable ∉ linearization_columns none)
    ∧ Column.LookupAggreg ∈ linearization_columns (some noLookupGatesFlags) := by
  decide

/-- C2: every terminating run of `constraints_expr` yields a registry whose
generic (base-arithmetic) gate family range starts at exponent 0, that state
passes the runtime check, and the check fails loudly on any registry whose
generic range does not start at 0. -/
theorem constraints_expr_generic_alpha_zero (ff : Option FeatureFlags) (g : Bool) :
    ∃ e a, constraints_expr ff g = Except.ok (e, a)
      ∧ a.get_exponents (ArgumentType.Gate GateType.Generic) 1 = Except.ok [0]
      ∧ genericAlphaCheck a = Except.ok ()
      ∧ (∀ a' : Alphas,
          a'.get_exponents (ArgumentType.Gate GateType.Generic) 1 ≠ Except.ok [0] →
          ∃ msg, genericAlphaCheck a' = Except.error msg) := by
  cases ff with
  | none =>
      exact ⟨noneExpr g, noneAlphas, constraints_expr_none_eq g, by decide, by decide,
        genericAlphaCheck_enforces⟩
  | some f =>
      refine ⟨someExpr f g, someAlphas f.lookup_features.uses_runtime_tables,
        constraints_expr_some_eq f g, ?_, ?_, genericAlphaCheck_enforces⟩
      · cases f.lookup_features.uses_runtime_tables <;> decide
      · cases f.lookup_features.uses_runtime_tables <;> decide

/-- Witness for C2: the enforcement branch fires on a concrete registry (the
empty one) whose generic range does not start at 0. -/
theorem constraints_expr_generic_alpha_zero_witness :
    ∃ msg, genericAlphaCheck Alphas.default = Except.error msg := by
  obtain ⟨e, a, -, -, -, henf⟩ := constraints_expr_generic_alpha_zero none true
  exact henf Alphas.default (by decide)

/-- C3: for each optional gate family, statically given flags with that
family's flag false produce a joint expression with no conditional node for
that flag anywhere (indeed with no conditional node at all), while absent
flags produce an expression that does contain that flag's conditional node. -/
theorem optional_family_flag_gating (f : FeatureFlags) (g : Bool) (fl : FeatureFlag)
    (hmem : fl ∈ optionalFlagList) :
    (flagEnabled f fl = false →
      ∀ e a, constraints_expr (some f) g = Except.ok (e, a) → e.containsFlag fl = false)
    ∧ (∀ e a, constraints_expr none g = Except.ok (e, a) → e.containsFlag fl = true) := by
  constructor
  · intro _ e a h
    rw [constraints_expr_some_eq] at h
    have he : someExpr f g = e :=
      congrArg Prod.fst ((Except.ok.injEq _ _).mp h)
    rw [← he]
    exact containsFlag_eq_false_of_noFlags _ (someExpr_noFlags f g) fl
  · intro e a h
    rw [constraints_expr_none_eq] at h
    have he : noneExpr g = e :=
      congrArg Prod.fst ((Except.ok.injEq _ _).mp h)
    rw [← he]
    fin_cases hmem <;> cases g <;> decide

/-- Witness for C3: with ChaCha disabled statically the joint expression has
no ChaCha conditional node; with absent flags it has one. -/
theorem optional_family_flag_gating_witness :
    Expr.containsFlag FeatureFlag.ChaCha (someExpr chachaOffFlags true) = false
      ∧ Expr.containsFlag FeatureFlag.ChaCha (noneExpr true) = true := by
  have h := optional_family_flag_gating chachaOffFlags true FeatureFlag.ChaCha (by decide)
  exact ⟨h.1 (by decide) (someExpr chachaOffFlags true) (someAlphas true)
      (constraints_expr_some_eq chachaOffFlags true),
    h.2 (noneExpr true) noneAlphas (constraints_expr_none_eq true)⟩

/-- C4: for every flags argument, including `none`, the evaluated-column set
contains all witness columns, all coefficient columns, the permutation
accumulator `Z`, the generic selector and the Poseidon selector. -/
theorem linearization_columns_core (ff : Option FeatureFlags) :
    (∀ i, i < COLUMNS →
      Column.Witness i ∈ linearization_columns ff
        ∧ Column.Coefficient i ∈ linearization_columns ff)
    ∧ Column.Z ∈ linearization_columns ff
    ∧ Column.Index GateType.Generic ∈ linearization_columns ff
    ∧ Column.Index GateType.Poseidon ∈ linearization_columns ff := by
  refine ⟨fun i hi => ⟨?_, ?_⟩, ?_, ?_, ?_⟩
  · simp only [linearization_columns, Finset.mem_union, witnessColumns,
      List.mem_toFinset, List.mem_map, List.mem_range]
    exact Or.inl (Or.inl (Or.inl ⟨i, hi, rfl⟩))
  · simp only [linearization_columns, Finset.mem_union, coefficientColumns,
      List.mem_toFinset, List.mem_map, List.mem_range]
    exact Or.inl (Or.inl (Or.inr ⟨i, hi, rfl⟩))
  · simp [linearization_columns]
  · simp [linearization_columns]
  · simp [linearization_columns]

/-- Witness for C4: a concrete core column at a concrete input. -/
theorem linearization_columns_core_witness :
    Column.Witness 0 ∈ linearization_columns none :=
  ((linearization_columns_core none).1 0 (by decide)).1

/-- C5: with absent flags, `constraints_expr` uses the all-enabled lookup
configuration (every pattern, runtime tables and joint lookups on), registers
exactly its constraint count for the lookup argument, and adds the weighted
sum of those constraints wrapped in a conditional node for the lookup flag. -/
theorem constraints_expr_none_lookup (g : Bool) :
    ∃ e a, constraints_expr none g =
      Except.ok (Expr.add e (Expr.enabledIf FeatureFlag.LookupTables
        (combineConstraints
          ((List.range (lookupConstraints allLookupConfiguration).length).map (fun i => 24 + i))
          (lookupConstraints allLookupConfiguration))), a)
      ∧ a.registeredRange ArgumentType.Lookup =
          some (24, (lookupConstraints allLookupConfiguration).length)
      ∧ allLookupFeatures = ⟨⟨true, true, true, true, true⟩, true, true⟩ := by
  exact ⟨noneGateExpr g, noneAlphas, constraints_expr_none_eq g, by decide, rfl⟩

/-- C6: in every run, the registry records exactly three registrations in
order — one gate-family slot first, the permutation argument second, the
lookup argument last — with the gate slot sized by the maximal per-gate
constraint count and the permutation by its static count. -/
theorem constraints_expr_registration_order (ff : Option FeatureFlags) (g : Bool) :
    ∃ e a, constraints_expr ff g = Except.ok (e, a)
      ∧ registrationKeys a =
          [ArgumentType.Gate GateType.Zero, ArgumentType.Permutation, ArgumentType.Lookup]
      ∧ (registrationCounts a).take 2 = [VarbaseMul.CONSTRAINTS, Permutation.CONSTRAINTS]
      ∧ VarbaseMul.CONSTRAINTS = gateConstraintCountList.foldr max 0 := by
  cases ff with
  | none =>
      exact ⟨noneExpr g, noneAlphas, constraints_expr_none_eq g, by decide, by decide, by decide⟩
  | some f =>
      refine ⟨someExpr f g, someAlphas f.lookup_features.uses_runtime_tables,
        constraints_expr_some_eq f g, ?_, ?_, by decide⟩
      · cases f.lookup_features.uses_runtime_tables <;> decide
      · cases f.lookup_features.uses_runtime_tables <;> decide

/-- C7: whenever the lookup constraint list is too long for a 32-bit count,
`constraints_expr` fails with the `expect` panic message — it neither
truncates nor returns a recoverable value. -/
theorem constraints_expr_lookup_overflow (lc : LookupConfiguration → List Expr)
    (ff : Option FeatureFlags) (g : Bool)
    (h : 2 ^ 32 ≤ (lc (lookupCfgFor ff)).length) :
    constraintsExprWith lc ff g =
      Except.error "we always expect a relatively low amount of constraints" := by
  have hlt : ¬ (lc (lookupCfgFor ff)).length < 2 ^ 32 := Nat.not_lt.mpr h
  cases ff with
  | some f =>
      simp only [lookupCfgFor] at hlt
      simp only [constraintsExprWith, gatePhase_some_eq, exceptBind_ok, u32_try_from,
        if_neg hlt, exceptBind_error]
  | none =>
      simp only [lookupCfgFor] at hlt
      simp only [constraintsExprWith, gatePhase_none_eq, exceptBind_ok, u32_try_from,
        if_neg hlt, exceptBind_error]

/-- Witness for C7: a lookup constraint list of length `2 ^ 32` makes
`constraints_expr` fail with the panic message. -/
theorem constraints_expr_lookup_overflow_witness :
    constraintsExprWith (fun _ => List.replicate (2 ^ 32) (Expr.const 0)) none true =
      Except.error "we always expect a relatively low amount of constraints" :=
  constraints_expr_lookup_overflow (fun _ => List.replicate (2 ^ 32) (Expr.const 0)) none true
    (by rw [List.length_replicate])

/-- C8: whenever the joint expression cannot be linearized against the
evaluated-column set, `expr_linearization` fails fatally with that very
error, never returning a partial result. -/
theorem expr_linearization_failure_fatal (ff : Option FeatureFlags) (g : Bool) (msg : String)
    (h : ∃ e a, constraints_expr ff g = Except.ok (e, a)
        ∧ e.linearize (linearization_columns ff) = Except.error msg) :
    expr_linearization ff g = Except.error msg := by
  obtain ⟨e, a, h1, h2⟩ := h
  simp only [expr_linearization, h1, exceptBind_ok, h2, exceptBind_error]

set_option maxRecDepth 8000 in
/-- Witness for C8: with absent flags the joint expression references lookup
columns that the (inverted) column selector leaves out, linearization fails,
and `expr_linearization` propagates the fatal error. -/
theorem expr_linearization_failure_fatal_witness :
    expr_linearization none true = Except.error "FailedLinearization" :=
  expr_linearization_failure_fatal none true "FailedLinearization"
    ⟨noneExpr true, noneAlphas, constraints_expr_none_eq true, by decide⟩

/-- C9: `expr_linearization` is deterministic — two calls with identical
arguments return identical compiled programs and identical registries. -/
theorem expr_linearization_deterministic (ff ff' : Option FeatureFlags) (g g' : Bool)
    (h1 : ff = ff') (h2 : g = g') :
    expr_linearization ff g = expr_linearization ff' g' := by
  rw [h1, h2]

/-- Witness for C9 at a concrete input. -/
theorem expr_linearization_deterministic_witness :
    expr_linearization none false = expr_linearization none false :=
  expr_linearization_deterministic none none false false rfl rfl

/-- C10: `linearization_columns` with `none` returns exactly the column set
of the all-enabled flags value (as the specification words it), which is the
very record the code substitutes before selecting any column. -/
theorem linearization_columns_none_refines_all_enabled :
    linearization_columns none = linearization_columns (some specAllEnabledFlags)
      ∧ specAllEnabledFlags = allFeatureFlags :=
  ⟨rfl, rfl⟩

end KimchiLin
